import Mathlib

/- Verification development for the Storigrad server.

   Shallow embedding of the backend: the relational data model from
   app/models.py, credential handling from app/auth.py, the auth and story
   endpoints from app/main.py, the turn-log CRUD from app/story.py, the story
   advancement from app/storyteller_mini.py, and the intent-routing pipeline
   from app/service.py and app/nn/.

   models.py declares the columns
     users(id, email, username, password_hash, plan, stories_count, created_at),
     stories(id, owner_id, title, config, created_at, updated_at),
     story_turns(id, story_id, turns).
   Several call sites refer to attributes that are not declared there
   (Story.genre, StoryTurn.idx / user_text / model_text /
   yc_previous_response_id); Python raises AttributeError on such a class or
   instance attribute access and SQLAlchemy's declarative constructor raises
   TypeError on such a keyword argument.  Those raises are modelled explicitly
   below via the declared-attribute lists. -/

/-- Python-level exceptions relevant to these code paths. -/
inductive PyError where
  | attributeError (msg : String)
  | typeError (msg : String)
  | valueError (msg : String)
deriving DecidableEq

/-- fastapi.HTTPException with its status code and detail message. -/
structure HTTPError where
  status_code : Nat
  detail : String
deriving DecidableEq

/-- str.lower restricted to the alphabets this code base feeds it: ASCII
letters plus the Russian Cyrillic block used by the keyword lists. -/
def pyLowerChar (c : Char) : Char :=
  if 'A' ≤ c ∧ c ≤ 'Z' then Char.ofNat (c.toNat + 32)
  else if 0x410 ≤ c.toNat ∧ c.toNat ≤ 0x42F then Char.ofNat (c.toNat + 0x20)
  else if c.toNat = 0x401 then Char.ofNat 0x451
  else c

def pyLower (s : String) : String := String.mk (s.toList.map pyLowerChar)

/-- Bool test that `pat` starts the character list `s`. -/
def leadsWith : List Char → List Char → Bool
  | [], _ => true
  | _ :: _, [] => false
  | c :: cs, d :: ds => c == d && leadsWith cs ds

/-- Python `needle in hay` on strings: contiguous substring containment.
Also covers re.search of a plain alternation of literals, which is just
substring search for each alternative. -/
def strContains (hay need : String) : Bool :=
  (List.range (hay.toList.length + 1)).any
    (fun i => leadsWith need.toList (hay.toList.drop i))

/-- Stored password credentials (auth.py).  passlib's bcrypt
(auth.hash_password) embeds a freshly drawn random salt in every encoding and
its output always begins with "$2"; hashlib.sha256 hexdigests are
deterministic hex strings and never begin with "$2".  The per-call random
salt is modelled by an explicit salt-supply counter (DB.saltSupply): distinct
draws yield distinct encodings, which is exactly the property of fresh random
salts that the code's comparisons depend on. -/
inductive Hash where
  | bcrypt (password : String) (salt : Nat)
  | sha256 (password : String)
deriving DecidableEq

/-- auth._hash_password_sha256: deterministic legacy digest. -/
def hash_password_sha256 (password : String) : Hash := Hash.sha256 password

/-- The stored_hash.startswith("$2") test of auth.verify_password. -/
def startsWithDollar2 : Hash → Bool
  | Hash.bcrypt _ _ => true
  | Hash.sha256 _ => false

/-- auth.hash_password: a bcrypt encoding under a freshly drawn salt.  The
caller threads the fresh salt value from DB.saltSupply. -/
def hash_password (password : String) (freshSalt : Nat) : Hash :=
  Hash.bcrypt password freshSalt

/-- auth.verify_password (auth.py lines 54-75): when the stored encoding
starts with "$2", passlib re-hashes the candidate under the salt stored in
the encoding, so the check succeeds exactly when the passwords agree;
otherwise it compares the legacy sha256 digest. -/
def verify_password (password : String) (stored : Hash) : Bool :=
  if startsWithDollar2 stored then
    match stored with
    | Hash.bcrypt pw _ => pw == password
    | Hash.sha256 _ => false
  else
    decide (hash_password_sha256 password = stored)

/-- models.User (models.py lines 10-19); created_at modelled by the DB clock. -/
structure UserRow where
  id : Nat
  email : String
  username : String
  password_hash : Hash
  plan : String
  stories_count : Nat
  created_at : Nat
deriving DecidableEq

/-- One element of the turns JSON array built by story.add_turn
(story.py lines 98-103). -/
structure Turn where
  user_text : String
  model_text : String
deriving DecidableEq

/-- models.Story (models.py lines 22-44).  The config JSON blob is carried
opaquely; no code path relevant to the claims ever gets to interpret it.
Note that models.py declares no genre column. -/
structure Story where
  id : Nat
  owner_id : Option Nat
  title : String
  config : String
  created_at : Nat
  updated_at : Nat
deriving DecidableEq

/-- models.StoryTurn (models.py lines 47-54): columns id, story_id, turns
only.  There is no idx, user_text, model_text or yc_previous_response_id
column. -/
structure StoryTurn where
  id : Nat
  story_id : Nat
  turns : List Turn
deriving DecidableEq

/-- Relational state, plus the bcrypt salt supply (a counter standing for
passlib's per-call random salt), the autoincrement counter for users, and the
SQL clock func.now(). -/
structure DB where
  users : List UserRow
  stories : List Story
  story_turns : List StoryTurn
  nextUserId : Nat
  saltSupply : Nat
  now : Nat
deriving DecidableEq

/-- Mapped attribute names of models.Story (models.py lines 22-44):
the columns plus the turns relationship. -/
def storyAttrs : List String :=
  ["id", "owner_id", "title", "config", "created_at", "updated_at", "turns"]

/-- Mapped attribute names of models.StoryTurn (models.py lines 47-54):
the columns plus the story relationship. -/
def storyTurnAttrs : List String := ["id", "story_id", "turns", "story"]

/-- Python attribute lookup on a mapped class or a loaded instance:
AttributeError when the name is not declared on the model. -/
def pyGetAttr (attrs : List String) (cls attr : String) : Except PyError Unit :=
  if attrs.contains attr then Except.ok ()
  else Except.error (PyError.attributeError (cls ++ "." ++ attr))

/-- SQLAlchemy's declarative constructor: raises TypeError on the first
keyword argument that is not a mapped attribute of the class. -/
def sqlaInit (attrs : List String) (cls : String) (kwargs : List String) :
    Except PyError Unit :=
  match kwargs.find? (fun k => !(attrs.contains k)) with
  | some k =>
      Except.error (PyError.typeError
        (k ++ " is an invalid keyword argument for " ++ cls))
  | none => Except.ok ()

deriving instance DecidableEq for Except

/-- auth.AuthResponse. -/
structure AuthResponse where
  message : String
  token : String
deriving DecidableEq

/-- auth.create_jwt, with jose.jwt.encode modelled abstractly as an opaque
non-empty token string carrying the user id. -/
def create_jwt (user_id : Nat) : String := "jwt." ++ toString user_id

/-- main.register (main.py lines 50-72): lowercase the email, reject a
duplicate, store hash_password(password), return an empty token. -/
def register (db : DB) (email username password : String) :
    Except HTTPError AuthResponse × DB :=
  let email := pyLower email
  match db.users.find? (fun u => u.email == email) with
  | some _ =>
      (Except.error { status_code := 400,
                      detail := "User with this email already exists." }, db)
  | none =>
      let user : UserRow :=
        { id := db.nextUserId, email := email, username := username,
          password_hash := hash_password password db.saltSupply,
          plan := "Free", stories_count := 0, created_at := db.now }
      (Except.ok { message := "User registered successfully.", token := "" },
        { db with users := db.users ++ [user],
                  nextUserId := db.nextUserId + 1,
                  saltSupply := db.saltSupply + 1 })

/-- main.login (main.py lines 75-87).  Line 80 tests
`user.password_hash != hash_password(req.password)`, i.e. it compares the
stored encoding against a bcrypt encoding under a newly drawn salt; it does
not call auth.verify_password or auth.verify_and_upgrade_password.  The
fresh hash is computed only when the user lookup succeeded (short-circuit
`not user or ...`). -/
def login (db : DB) (email password : String) :
    Except HTTPError AuthResponse × DB :=
  let email := pyLower email
  match db.users.find? (fun u => u.email == email) with
  | none =>
      (Except.error { status_code := 401,
                      detail := "Invalid email or password." }, db)
  | some user =>
      let fresh := hash_password password db.saltSupply
      let db' := { db with saltSupply := db.saltSupply + 1 }
      if user.password_hash = fresh then
        (Except.ok { message := "Login successful.",
                     token := create_jwt user.id }, db')
      else
        (Except.error { status_code := 401,
                        detail := "Invalid email or password." }, db')

/-- auth.verify_and_upgrade_password (auth.py lines 78-97): verify, then
replace a legacy digest by a fresh bcrypt encoding.  Defined by the code base
for the transparent-upgrade flow, but never called from main.login. -/
def verify_and_upgrade_password (db : DB) (user : UserRow) (password : String) :
    Bool × DB :=
  if verify_password password user.password_hash then
    if startsWithDollar2 user.password_hash then (true, db)
    else
      let h := hash_password password db.saltSupply
      (true,
        { db with saltSupply := db.saltSupply + 1,
                  users := db.users.map (fun u =>
                    if u.id = user.id then { u with password_hash := h } else u) })
  else (false, db)

/-- order_by(id.asc()).first() over a set of rows: the row with the least id
(ids are primary keys, so ties do not occur in reachable states). -/
def minById? : List StoryTurn → Option StoryTurn
  | [] => none
  | r :: rs =>
      match minById? rs with
      | none => some r
      | some m => if m.id < r.id then some m else some r

/-- Python list slice xs[-k:]: for k = 0 this is xs[0:], i.e. the whole list;
for k > 0 it is the last k elements (all of xs when k exceeds the length). -/
def sliceTail (xs : List Turn) (k : Nat) : List Turn :=
  if k = 0 then xs else xs.drop (xs.length - k)

/-- Writing back the mutated ORM row: the fetched row value is replaced by its
updated value in place. -/
def replaceRow (rows : List StoryTurn) (old new : StoryTurn) : List StoryTurn :=
  rows.map (fun r => if r = old then new else r)

/-- story.add_turn (story.py lines 69-117).  When no row exists for the story
yet, the code constructs
`models.StoryTurn(story_id=…, turns=[], yc_previous_response_id=…)`
(lines 88-92); models.StoryTurn declares no yc_previous_response_id column,
so the declarative constructor raises TypeError and nothing is inserted.
When a row exists, the code appends `{user_text, model_text}` to its turns
array; line 108 then assigns `turn_row.yc_previous_response_id` only when the
token is truthy, a plain unmapped instance attribute that persists nothing;
finally the story's updated_at is set to func.now() and the session commits. -/
def add_turn (db : DB) (story_id : Nat) (user_text model_text : String)
    (_yc_previous_response_id : Option String) :
    Except PyError (StoryTurn × DB) :=
  match minById? (db.story_turns.filter (fun r => r.story_id == story_id)) with
  | none =>
      match sqlaInit storyTurnAttrs "StoryTurn"
          ["story_id", "turns", "yc_previous_response_id"] with
      | Except.error e => Except.error e
      | Except.ok _ =>
          -- unreachable against models.py: the constructor above raises
          Except.error (PyError.typeError "unreachable")
  | some turn_row =>
      let turn_row' : StoryTurn :=
        { turn_row with
            turns := turn_row.turns ++
              [{ user_text := user_text, model_text := model_text }] }
      let stories' := db.stories.map
        (fun s => if s.id = story_id then { s with updated_at := db.now } else s)
      Except.ok (turn_row',
        { db with stories := stories',
                  story_turns := replaceRow db.story_turns turn_row turn_row' })

/-- story.get_turns (story.py lines 120-147): fetch the single per-story row
(order_by id asc, first), return [] when there is no row or its array is
empty, return the whole array when its length is at most limit, and otherwise
the tail slice turns[-limit:].  Pure read, no mutation. -/
def get_turns (db : DB) (story_id : Nat) (limit : Nat) : List Turn :=
  match minById? (db.story_turns.filter (fun r => r.story_id == story_id)) with
  | none => []
  | some turn_row =>
      if turn_row.turns.isEmpty then []
      else if turn_row.turns.length ≤ limit then turn_row.turns
      else sliceTail turn_row.turns limit

/-- Outcome of the external client.chat.completions.create call: failure is
any raised exception (timeout, transport, malformed response), success
carries the reply text. -/
inductive ProviderOutcome where
  | failure
  | success (content : String)
deriving DecidableEq

/-- The fixed localized unavailability sentinel of storyteller_mini.py
line 204. -/
def narratorUnavailable : String :=
  "Сейчас рассказчик недоступен, попробуйте ещё раз позже."

/-- storyteller_mini.generate_story_step (storyteller_mini.py lines 19-224).
Execution order in the source: resolve the story for (story_id, user_id)
(lines 38-47, ValueError when absent); read config keys (lines 49-53, pure);
then build the previous-turn query whose
`order_by(models.StoryTurn.idx.desc())` (line 59) evaluates the class
attribute models.StoryTurn.idx — models.py declares no idx column, so Python
raises AttributeError here, before the prompt assembly (lines 63-192), the
provider call inside try/except (lines 195-204) and the per-turn insert
(lines 207-222) can ever run.  The dead remainder is still translated below:
the except-branch would return the sentinel without persisting, and the save
path would again touch StoryTurn.idx (line 208) and then construct
`models.StoryTurn(story_id=…, idx=…, user_text=…, model_text=…)` (lines
214-219), which the declarative constructor rejects with TypeError. -/
def generate_story_step (db : DB) (story_id user_id : Nat)
    (_user_input _mode : String) (provider : ProviderOutcome) :
    Except PyError (String × DB) :=
  match db.stories.find?
      (fun s => s.id == story_id && s.owner_id == some user_id) with
  | none => Except.error (PyError.valueError "История не найдена или нет доступа")
  | some _story =>
      match pyGetAttr storyTurnAttrs "StoryTurn" "idx" with
      | Except.error e => Except.error e
      | Except.ok _ =>
          match provider with
          | ProviderOutcome.failure => Except.ok (narratorUnavailable, db)
          | ProviderOutcome.success _story_text =>
              match pyGetAttr storyTurnAttrs "StoryTurn" "idx" with
              | Except.error e => Except.error e
              | Except.ok _ =>
                  match sqlaInit storyTurnAttrs "StoryTurn"
                      ["story_id", "idx", "user_text", "model_text"] with
                  | Except.error e => Except.error e
                  | Except.ok _ => Except.error (PyError.typeError "unreachable")

/-- Responses of GET /stories/{id}: an HTTPException, a 307 redirect, the
story payload {id, title, config, turns}, or an uncaught Python exception
(surfaced by the framework as a 500). -/
inductive GetStoryOut where
  | http (err : HTTPError)
  | redirect (url : String)
  | story (id : Nat) (title : String) (config : String) (turns : List Turn)
  | crash (e : PyError)
deriving DecidableEq

/-- main.get_story_endpoint (main.py lines 249-300).  The story is fetched by
id only (lines 256-260), 404 when absent.  Template branch (owner_id NULL,
lines 266-290): the copy constructor's keyword values evaluate left to right
and `db_story.genre` (line 271) raises AttributeError — models.Story declares
no genre column — so the copy, the stories_count increment and the 307
redirect can never execute; were the attribute present, the constructor's
genre keyword would be rejected just the same.  Non-template branch (lines
292-300): the story's id, title, config and turns are returned with NO check
that owner_id equals the caller's id — which is why the parameter below is
never consulted on that path. -/
def get_story_endpoint (db : DB) (story_id : Nat) (_current_user_id : Nat) :
    GetStoryOut × DB :=
  match db.stories.find? (fun s => s.id == story_id) with
  | none => (GetStoryOut.http { status_code := 404, detail := "История не найдена" }, db)
  | some db_story =>
      match db_story.owner_id with
      | none =>
          match pyGetAttr storyAttrs "Story" "genre" with
          | Except.error e => (GetStoryOut.crash e, db)
          | Except.ok _ =>
              match sqlaInit storyAttrs "Story"
                  ["owner_id", "title", "genre", "config"] with
              | Except.error e => (GetStoryOut.crash e, db)
              | Except.ok _ =>
                  -- unreachable against models.py
                  (GetStoryOut.crash (PyError.typeError "unreachable"), db)
      | some _owner =>
          (GetStoryOut.story db_story.id db_story.title db_story.config
            (get_turns db db_story.id 50), db)

/-- schemas.InferenceRequest.  Its optional context and meta fields are never
read by any module or by the pipeline, so only the message field is carried. -/
structure InferenceRequest where
  message : String
deriving DecidableEq

/-- schemas.TraceItem.  Scores are floats in the source; every score this
code produces is one of 0, 0.8, 1 compared against 0.5, values on which
binary floating point and ℚ agree, so scores are modelled in ℚ. -/
structure TraceItem where
  module : String
  accepted : Bool
  output : String
  score : Rat
deriving DecidableEq

/-- nn.base.Module: a named scorer plus responder.  The source class is named
Module; that name is taken by Mathlib, hence NNModule here. -/
structure NNModule where
  name : String
  score : InferenceRequest → Rat
  run : InferenceRequest → String

/-- The default acceptance threshold thr=0.5 of nn.base.Module.decide. -/
def threshold : Rat := mkRat 1 2

/-- nn.base.Module.decide at the default threshold: (score ≥ thr, score). -/
def NNModule.decide (m : NNModule) (req : InferenceRequest) : Bool × Rat :=
  (Decidable.decide (threshold ≤ m.score req), m.score req)

/-- nn.modules.GreetingModule. -/
def greetingModule : NNModule :=
  { name := "greeting"
    score := fun req =>
      if ["привет", "здрав", "hello", "hi"].any
          (fun w => strContains (pyLower req.message) w) then 1 else 0
    run := fun _ =>
      "Принято. Вы в Сториграде. Кратко опишите, что хотите сделать в мире истории." }

/-- nn.modules.LoreModule; its regex is a plain alternation of literals. -/
def loreModule : NNModule :=
  { name := "lore"
    score := fun req =>
      if ["мир", "локаци", "персонаж", "сеттинг"].any
          (fun w => strContains (pyLower req.message) w) then 1 else 0
    run := fun _ => "Опишите локацию, время, цель. Я предложу три стартовых сцены." }

/-- nn.modules.ActionModule. -/
def actionModule : NNModule :=
  { name := "action"
    score := fun req =>
      if ["идти", "атак", "взять", "осмотреть", "open", "go"].any
          (fun w => strContains (pyLower req.message) w) then mkRat 8 10 else 0
    run := fun _ => "Действие принято. Сформирую ответ ведущего и последствия." }

/-- nn.modules.FallbackModule: always accepts with score 1. -/
def fallbackModule : NNModule :=
  { name := "fallback"
    score := fun _ => 1
    run := fun _ => "Опишите цель. Доступны: создание мира, выбор роли, действие." }

/-- nn.modules.default_modules: the fixed priority order. -/
def default_modules : List NNModule :=
  [greetingModule, loreModule, actionModule, fallbackModule]

/-- service.Pipeline. -/
structure Pipeline where
  modules : List NNModule

/-- The for-loop of service.Pipeline.run (service.py lines 13-19): every
evaluated module contributes a trace item (output "" when not accepted), and
the loop breaks on the first accepted non-fallback module, which is the only
point where the outputs list gains an element. -/
def runModules (req : InferenceRequest) : List NNModule → List TraceItem × List String
  | [] => ([], [])
  | m :: rest =>
      let d := m.decide req
      let out := if d.1 then m.run req else ""
      let item : TraceItem :=
        { module := m.name, accepted := d.1, output := out, score := d.2 }
      if d.1 && m.name != "fallback" then ([item], [out])
      else
        let r := runModules req rest
        (item :: r.1, r.2)

/-- service.Pipeline.run (service.py lines 10-24): run the loop; when no
non-fallback module accepted, outputs becomes the fallback's trace outputs;
the reply joins the non-empty outputs with newlines. -/
def Pipeline.run (p : Pipeline) (req : InferenceRequest) :
    String × List TraceItem :=
  let r := runModules req p.modules
  let outputs :=
    if r.2.isEmpty then
      (r.1.filter (fun t => t.module == "fallback")).map (fun t => t.output)
    else r.2
  (String.intercalate "\n" (outputs.filter (fun s => s != "")), r.1)

/-- The turn-appending operations of the system: story.add_turn and
storyteller_mini.generate_story_step, each leaving the DB unchanged when it
raises (the session is discarded without commit). -/
inductive TurnOp where
  | app (sid : Nat) (u m : String) (tok : Option String)
  | gen (sid uid : Nat) (inp mode : String) (pr : ProviderOutcome)

def applyTurnOp (db : DB) : TurnOp → DB
  | TurnOp.app sid u m tok =>
      match add_turn db sid u m tok with
      | Except.ok (_, db') => db'
      | Except.error _ => db
  | TurnOp.gen sid uid inp mode pr =>
      match generate_story_step db sid uid inp mode pr with
      | Except.ok (_, db') => db'
      | Except.error _ => db

/-- At most one story_turns row per story: no two rows share a story_id. -/
def TurnRowInvariant (db : DB) : Prop :=
  db.story_turns.Pairwise (fun a b => a.story_id ≠ b.story_id)

/- ------------------------------------------------------------------ -/
/- Helper lemmas                                                      -/
/- ------------------------------------------------------------------ -/

/-- add_turn can return successfully only by rewriting an existing row of the
story, appending the new pair to its turns array; when no row exists, the
declarative constructor raises. -/
lemma add_turn_ok {db : DB} {sid : Nat} {u m : String} {tok : Option String}
    {row : StoryTurn} {db' : DB}
    (h : add_turn db sid u m tok = Except.ok (row, db')) :
    ∃ r0, minById? (db.story_turns.filter (fun r => r.story_id == sid)) = some r0 ∧
      row = { r0 with turns := r0.turns ++ [{ user_text := u, model_text := m }] } ∧
      db'.story_turns = replaceRow db.story_turns r0 row := by
  unfold add_turn at h
  cases hm : minById? (db.story_turns.filter (fun r => r.story_id == sid)) with
  | none =>
      rw [hm] at h
      rw [show sqlaInit storyTurnAttrs "StoryTurn"
            ["story_id", "turns", "yc_previous_response_id"] =
          Except.error (PyError.typeError
            "yc_previous_response_id is an invalid keyword argument for StoryTurn")
        from rfl] at h
      simp at h
  | some r0 =>
      rw [hm] at h
      simp only [Except.ok.injEq, Prod.mk.injEq] at h
      obtain ⟨h1, h2⟩ := h
      refine ⟨r0, rfl, h1.symm, ?_⟩
      rw [← h2, ← h1]

/-- generate_story_step raises on every input: either the story lookup fails
(ValueError), or the StoryTurn.idx query of storyteller_mini.py line 59
raises AttributeError before anything else can happen. -/
lemma generate_story_step_errors (db : DB) (sid uid : Nat) (inp mode : String)
    (pr : ProviderOutcome) :
    ∃ e, generate_story_step db sid uid inp mode pr = Except.error e := by
  unfold generate_story_step
  cases hf : db.stories.find? (fun s => s.id == sid && s.owner_id == some uid) with
  | none => exact ⟨_, rfl⟩
  | some s =>
      rw [show pyGetAttr storyTurnAttrs "StoryTurn" "idx" =
          Except.error (PyError.attributeError "StoryTurn.idx") from rfl]
      exact ⟨_, rfl⟩

lemma minById?_mem {rows : List StoryTurn} {r : StoryTurn}
    (h : minById? rows = some r) : r ∈ rows := by
  induction rows with
  | nil => simp [minById?] at h
  | cons a as ih =>
      unfold minById? at h
      cases has : minById? as with
      | none =>
          rw [has] at h
          injection h with h
          exact h ▸ List.mem_cons_self a as
      | some m =>
          rw [has] at h
          have h' : (if m.id < a.id then some m else some a) = some r := h
          by_cases hlt : m.id < a.id
          · rw [if_pos hlt] at h'
            injection h' with h'
            exact List.mem_cons_of_mem _ (ih (h' ▸ has))
          · rw [if_neg hlt] at h'
            injection h' with h'
            exact h' ▸ List.mem_cons_self a as

/-- Rewriting one row in place without changing its story_id preserves the
one-row-per-story property. -/
lemma replaceRow_pairwise {rows : List StoryTurn} {old new : StoryTurn}
    (hsid : new.story_id = old.story_id)
    (h : rows.Pairwise (fun a b => a.story_id ≠ b.story_id)) :
    (replaceRow rows old new).Pairwise (fun a b => a.story_id ≠ b.story_id) := by
  unfold replaceRow
  rw [List.pairwise_map]
  refine h.imp ?_
  intro a b hab
  have key : ∀ x : StoryTurn, (if x = old then new else x).story_id = x.story_id := by
    intro x
    by_cases hx : x = old
    · rw [if_pos hx, hsid, hx]
    · rw [if_neg hx]
  rw [key a, key b]
  exact hab

lemma applyTurnOp_inv {db : DB} (op : TurnOp) (h : TurnRowInvariant db) :
    TurnRowInvariant (applyTurnOp db op) := by
  cases op with
  | gen sid uid inp mode pr =>
      obtain ⟨e, he⟩ := generate_story_step_errors db sid uid inp mode pr
      simpa [applyTurnOp, he] using h
  | app sid u m tok =>
      cases hres : add_turn db sid u m tok with
      | error e => simpa [applyTurnOp, hres] using h
      | ok p =>
          obtain ⟨row, db'⟩ := p
          obtain ⟨r0, hm, hrow, hst⟩ := add_turn_ok hres
          have hinv' : TurnRowInvariant db' := by
            unfold TurnRowInvariant
            rw [hst]
            exact replaceRow_pairwise (by rw [hrow]) h
          simpa [applyTurnOp, hres] using hinv'

lemma foldl_applyTurnOp_inv (ops : List TurnOp) (db : DB)
    (h : TurnRowInvariant db) :
    TurnRowInvariant (ops.foldl applyTurnOp db) := by
  induction ops generalizing db with
  | nil => exact h
  | cons op rest ih => exact ih _ (applyTurnOp_inv op h)

/-- Successful add_turn extends an existing row of the story in place: the
number of story_turns rows is unchanged and the returned row is a previously
existing row of that story with exactly the new pair appended. -/
def AppendExtendsRow (db : DB) : Prop :=
  ∀ sid u m tok row db', add_turn db sid u m tok = Except.ok (row, db') →
    db'.story_turns.length = db.story_turns.length ∧
    ∃ r0 ∈ db.story_turns, r0.story_id = sid ∧
      row.turns = r0.turns ++ [{ user_text := u, model_text := m }]

/- ------------------------------------------------------------------ -/
/- Concrete states used by the claim theorems                          -/
/- ------------------------------------------------------------------ -/

def emptyDB : DB :=
  { users := [], stories := [], story_turns := [],
    nextUserId := 1, saltSupply := 0, now := 0 }

/-- A user whose stored credential is the legacy sha256 digest of "secret1". -/
def legacyDB : DB :=
  { users := [{ id := 1, email := "a@x.com", username := "A",
                password_hash := Hash.sha256 "secret1", plan := "Free",
                stories_count := 0, created_at := 0 }],
    stories := [], story_turns := [], nextUserId := 2, saltSupply := 0, now := 0 }

/-- A story owned by user 1, with no turn-log row yet. -/
def advanceDB : DB :=
  { users := [], stories := [{ id := 1, owner_id := some 1, title := "T",
                               config := "cfg", created_at := 0, updated_at := 0 }],
    story_turns := [], nextUserId := 2, saltSupply := 0, now := 0 }

/-- Two users; story 1 belongs to user 1 and has one logged turn. -/
def twoUserDB : DB :=
  { users := [{ id := 1, email := "a@x.com", username := "A",
                password_hash := Hash.sha256 "p", plan := "Free",
                stories_count := 1, created_at := 0 },
              { id := 2, email := "b@x.com", username := "B",
                password_hash := Hash.sha256 "q", plan := "Free",
                stories_count := 0, created_at := 0 }],
    stories := [{ id := 1, owner_id := some 1, title := "Секрет",
                  config := "cfg1", created_at := 0, updated_at := 0 }],
    story_turns := [{ id := 1, story_id := 1,
                      turns := [{ user_text := "вопрос", model_text := "ответ" }] }],
    nextUserId := 3, saltSupply := 0, now := 0 }

/-- A template (ownerless story) and an authenticated user 7. -/
def templateDB : DB :=
  { users := [{ id := 7, email := "u@x.com", username := "U",
                password_hash := Hash.sha256 "p", plan := "Free",
                stories_count := 0, created_at := 0 }],
    stories := [{ id := 1, owner_id := none, title := "Шаблон",
                  config := "tcfg", created_at := 0, updated_at := 0 }],
    story_turns := [], nextUserId := 8, saltSupply := 0, now := 0 }

/-- A story with an existing turn-log row holding two turns. -/
def twoTurnDB : DB :=
  { users := [], stories := [{ id := 1, owner_id := some 1, title := "T",
                               config := "cfg", created_at := 0, updated_at := 0 }],
    story_turns := [{ id := 1, story_id := 1,
                      turns := [{ user_text := "u1", model_text := "m1" },
                                { user_text := "u2", model_text := "m2" }] }],
    nextUserId := 2, saltSupply := 0, now := 5 }

def invOps : List TurnOp :=
  [TurnOp.app 1 "здравствуй" "ответ" none,
   TurnOp.gen 1 1 "дальше" "dialogue" ProviderOutcome.failure,
   TurnOp.gen 1 1 "ещё" "narration" (ProviderOutcome.success "текст"),
   TurnOp.app 1 "ещё" "ответ2" (some "tok"),
   TurnOp.app 2 "x" "y" none]

/- ------------------------------------------------------------------ -/
/- Claim theorems                                                     -/
/- ------------------------------------------------------------------ -/

/-- C1.  The claim says a registered user can log in with the same email and
password and receive a non-empty bearer token.  The code cannot satisfy it:
register succeeds and stores a bcrypt encoding of "secret1", auth's own
verifier accepts "secret1" against that stored encoding, yet login — which
compares the stored encoding against hash_password under a fresh salt
(main.py line 80) — rejects the correct password with 401, exactly as it
rejects a wrong one. -/
theorem login_after_register_rejects_correct_password :
    (register emptyDB "a@x.com" "A" "secret1").1 =
      Except.ok { message := "User registered successfully.", token := "" } ∧
    ((register emptyDB "a@x.com" "A" "secret1").2).users.map
        (fun u => u.password_hash) = [Hash.bcrypt "secret1" 0] ∧
    verify_password "secret1" (Hash.bcrypt "secret1" 0) = true ∧
    (login (register emptyDB "a@x.com" "A" "secret1").2 "a@x.com" "secret1").1 =
      Except.error { status_code := 401, detail := "Invalid email or password." } ∧
    (login (register emptyDB "a@x.com" "A" "secret1").2 "a@x.com" "wrongpw").1 =
      Except.error { status_code := 401, detail := "Invalid email or password." } := by
  decide

/-- C2.  The claim says reading an existing story that is neither owned by
the caller nor a template fails with Not-Found and never exposes another
user's story.  The code has no ownership check on the non-template branch of
GET /stories/{id}: user 2 requesting story 1, owned by user 1, receives the
full story payload (id, title, config, turns) instead of a 404. -/
theorem get_story_endpoint_returns_foreign_story :
    twoUserDB.stories.map (fun s => s.owner_id) = [some 1] ∧
    get_story_endpoint twoUserDB 1 2 =
      (GetStoryOut.story 1 "Секрет" "cfg1"
        [{ user_text := "вопрос", model_text := "ответ" }], twoUserDB) := by
  decide

/-- C3.  The claim says a provider failure inside generate_story_step raises
nothing, returns the localized unavailability sentinel, and persists nothing.
In fact the call raises AttributeError at the models.StoryTurn.idx query
(storyteller_mini.py line 59) before the provider is ever invoked, so the
sentinel is never returned. -/
theorem generate_story_step_failure_path_raises_attribute_error :
    generate_story_step advanceDB 1 1 "Привет" "dialogue" ProviderOutcome.failure =
      Except.error (PyError.attributeError "StoryTurn.idx") := by
  decide

/-- C4.  The claim says a successful provider call appends the
{user_text, model_text} pair to the story's single turn-log row, persists the
continuation token on it and bumps updated_at.  The call never gets that far:
it raises AttributeError at the models.StoryTurn.idx query before the
provider is invoked, so nothing is appended or persisted even when the
provider would succeed; the save path it can never reach builds one new row
per turn rather than appending to the single row. -/
theorem generate_story_step_success_path_raises_attribute_error :
    generate_story_step advanceDB 1 1 "Привет" "dialogue"
        (ProviderOutcome.success "Ответ рассказчика") =
      Except.error (PyError.attributeError "StoryTurn.idx") := by
  decide

/-- C5.  At most one story_turns row exists per story at all times: from any
state satisfying the invariant, any sequence of add_turn and
generate_story_step operations preserves it, and a successful add_turn
extends an existing row's turns array in place rather than inserting a row. -/
theorem turn_log_at_most_one_row_per_story (db0 : DB) (ops : List TurnOp)
    (hinv : TurnRowInvariant db0) :
    TurnRowInvariant (ops.foldl applyTurnOp db0) ∧ AppendExtendsRow db0 := by
  constructor
  · exact foldl_applyTurnOp_inv ops db0 hinv
  · intro sid u m tok row db' hok
    obtain ⟨r0, hm, hrow, hst⟩ := add_turn_ok hok
    constructor
    · rw [hst]
      unfold replaceRow
      exact List.length_map _ _
    · have hmem : r0 ∈ db0.story_turns :=
        List.mem_of_mem_filter (minById?_mem hm)
      have hsidq : r0.story_id = sid := by
        have := List.of_mem_filter (minById?_mem hm)
        simpa using this
      exact ⟨r0, hmem, hsidq, by rw [hrow]⟩

theorem turn_log_at_most_one_row_per_story_witness :
    TurnRowInvariant (invOps.foldl applyTurnOp twoTurnDB) ∧
    AppendExtendsRow twoTurnDB :=
  turn_log_at_most_one_row_per_story twoTurnDB invOps
    (by simp [TurnRowInvariant, twoTurnDB])

/-- C6.  The claim says appending N turns and reading them back with
get_turns round-trips.  No turn can ever be appended to a fresh story: on a
story with no turn-log row, add_turn's row creation passes the keyword
yc_previous_response_id to the models.StoryTurn constructor (story.py lines
88-92), which models.py does not declare, so the very first append raises
TypeError and the round-trip of the claim is unreachable. -/
theorem add_turn_first_append_raises_type_error :
    add_turn advanceDB 1 "u1" "m1" none =
      Except.error (PyError.typeError
        "yc_previous_response_id is an invalid keyword argument for StoryTurn") := by
  decide

/-- C7.  When no non-fallback module's score clears the 0.5 threshold, the
pipeline's reply is exactly the fallback module's output string — never a
concatenation involving output of a non-accepted module. -/
theorem pipeline_fallback_reply_is_exact_fallback_output (req : InferenceRequest)
    (hg : greetingModule.score req < threshold)
    (hl : loreModule.score req < threshold)
    (ha : actionModule.score req < threshold) :
    (Pipeline.run { modules := default_modules } req).1 = fallbackModule.run req := by
  have hg' : (["привет", "здрав", "hello", "hi"].any
      (fun w => strContains (pyLower req.message) w)) = false := by
    cases hc : (["привет", "здрав", "hello", "hi"].any
        (fun w => strContains (pyLower req.message) w)) with
    | false => rfl
    | true =>
        have h1 : greetingModule.score req = 1 := by
          show (if ["привет", "здрав", "hello", "hi"].any
              (fun w => strContains (pyLower req.message) w) then (1 : Rat) else 0) = 1
          rw [hc, if_pos rfl]
        rw [h1] at hg
        exact absurd hg (by decide)
  have hl' : (["мир", "локаци", "персонаж", "сеттинг"].any
      (fun w => strContains (pyLower req.message) w)) = false := by
    cases hc : (["мир", "локаци", "персонаж", "сеттинг"].any
        (fun w => strContains (pyLower req.message) w)) with
    | false => rfl
    | true =>
        have h1 : loreModule.score req = 1 := by
          show (if ["мир", "локаци", "персонаж", "сеттинг"].any
              (fun w => strContains (pyLower req.message) w) then (1 : Rat) else 0) = 1
          rw [hc, if_pos rfl]
        rw [h1] at hl
        exact absurd hl (by decide)
  have ha' : (["идти", "атак", "взять", "осмотреть", "open", "go"].any
      (fun w => strContains (pyLower req.message) w)) = false := by
    cases hc : (["идти", "атак", "взять", "осмотреть", "open", "go"].any
        (fun w => strContains (pyLower req.message) w)) with
    | false => rfl
    | true =>
        have h1 : actionModule.score req = mkRat 8 10 := by
          show (if ["идти", "атак", "взять", "осмотреть", "open", "go"].any
              (fun w => strContains (pyLower req.message) w)
            then mkRat 8 10 else 0) = mkRat 8 10
          rw [hc, if_pos rfl]
        rw [h1] at ha
        exact absurd ha (by decide)
  have d0 : Decidable.decide (threshold ≤ (0 : Rat)) = false := by decide
  have d1 : Decidable.decide (threshold ≤ (1 : Rat)) = true := by decide
  have hle0 : ¬ (threshold ≤ (0 : Rat)) := by decide
  have hle1 : threshold ≤ (1 : Rat) := by decide
  simp at hg' hl' ha'
  simp [Pipeline.run, runModules, default_modules, NNModule.decide,
        greetingModule, loreModule, actionModule, fallbackModule,
        hg', hl', ha', d0, d1, hle0, hle1]
  rfl

theorem pipeline_fallback_reply_is_exact_fallback_output_witness :
    greetingModule.score { message := "xyz" } < threshold ∧
    loreModule.score { message := "xyz" } < threshold ∧
    actionModule.score { message := "xyz" } < threshold ∧
    (Pipeline.run { modules := default_modules } { message := "xyz" }).1 =
      fallbackModule.run { message := "xyz" } :=
  ⟨by decide, by decide, by decide,
    pipeline_fallback_reply_is_exact_fallback_output { message := "xyz" }
      (by decide) (by decide) (by decide)⟩

/-- C8.  The claim says a user stored with the legacy sha256 digest gets the
digest replaced by a bcrypt encoding on the first successful login.  auth's
own verifier accepts the password against the legacy digest, but login never
calls it: it rejects the correct password with 401 and leaves the users
table — including the legacy digest — unchanged, so no login ever succeeds
and no upgrade ever happens. -/
theorem legacy_hash_login_rejects_and_never_upgrades :
    verify_password "secret1" (Hash.sha256 "secret1") = true ∧
    (login legacyDB "a@x.com" "secret1").1 =
      Except.error { status_code := 401, detail := "Invalid email or password." } ∧
    ((login legacyDB "a@x.com" "secret1").2).users = legacyDB.users := by
  decide

/-- C9.  The claim says reading a template clones it for the caller,
increments the caller's story count and redirects to the clone.  Building the
clone evaluates db_story.genre (main.py line 271), an attribute models.Story
does not declare, so the read crashes with AttributeError and the state is
unchanged: no clone, no increment, no redirect. -/
theorem template_read_crashes_without_copy :
    get_story_endpoint templateDB 1 7 =
      (GetStoryOut.crash (PyError.attributeError "Story.genre"), templateDB) := by
  decide

/-- C10.  get_turns with limit = 0 on a story whose turn-log row holds a
non-empty array returns the whole array, because the length guard fails and
the Python tail slice turns[-0:] is turns[0:], the entire list. -/
theorem get_turns_limit_zero_returns_whole_array (db : DB) (sid : Nat)
    (row : StoryTurn)
    (hrow : minById? (db.story_turns.filter (fun r => r.story_id == sid)) = some row)
    (hne : row.turns ≠ []) :
    get_turns db sid 0 = row.turns := by
  unfold get_turns
  rw [hrow]
  have h1 : row.turns.isEmpty = false := by
    cases h : row.turns with
    | nil => exact absurd h hne
    | cons x xs => rfl
  have h2 : ¬ (row.turns.length ≤ 0) := by
    simpa [Nat.le_zero, List.length_eq_zero] using hne
  simp [h1, h2, sliceTail]

theorem get_turns_limit_zero_returns_whole_array_witness :
    minById? (twoTurnDB.story_turns.filter (fun r => r.story_id == 1)) =
      some { id := 1, story_id := 1,
             turns := [{ user_text := "u1", model_text := "m1" },
                       { user_text := "u2", model_text := "m2" }] } ∧
    get_turns twoTurnDB 1 0 =
      [{ user_text := "u1", model_text := "m1" },
       { user_text := "u2", model_text := "m2" }] :=
  ⟨by decide,
    get_turns_limit_zero_returns_whole_array twoTurnDB 1
      { id := 1, story_id := 1,
        turns := [{ user_text := "u1", model_text := "m1" },
                  { user_text := "u2", model_text := "m2" }] }
      (by decide) (by decide)⟩
